import Mathlib

/-!
Verification development for the e-commerce price monitor
(`src/price_monitor.py`).

The Python source is shallowly embedded: pure helpers become Lean
functions, the BeautifulSoup document interface is abstracted by
structures whose fields record the results of the queries the source
performs, HTTP fetching is a parameter `fetch : String → Option Doc`
(`make_request` returning `None` after exhausting retries is `none`),
and Python `float` prices are modelled exactly as rationals (`ℚ`), the
`float('inf')` sentinel becoming `Option.none`.
-/

/-- Characters matched by the whitespace class of the regex
`[A-Za-z\s€$£RON]` in `parse_price` (ASCII whitespace). -/
def pyWhitespaceChar (c : Char) : Bool :=
  c == ' ' || c == '\t' || c == '\n' || c == '\r' || c == '\x0b' || c == '\x0c'

/-- Characters removed by `re.sub(r'[A-Za-z\s€$£RON]', '', price_text)`
in `parse_price` (line 223): ASCII letters (which subsume `R`, `O`, `N`),
whitespace and the three currency symbols. -/
def strippedChar (c : Char) : Bool :=
  c.isAlpha || pyWhitespaceChar c || c == '€' || c == '$' || c == '£'

/-- The currency/letter stripping step of `parse_price` (line 223). -/
def stripCurrency (l : List Char) : List Char :=
  l.filter (fun c => ! strippedChar c)

/-- Python `str.rfind(c)` on a character list: the highest index of `c`,
`-1` when absent. -/
def rfindIdx (c : Char) (l : List Char) : ℤ :=
  (l.length : ℤ) - 1 - (l.reverse.indexOf c : ℤ)

/-- Python `str.replace(a, b)` for single characters. -/
def replaceChar (a b : Char) (l : List Char) : List Char :=
  l.map (fun c => if c = a then b else c)

/-- Python `str.replace(a, '')` for a single character. -/
def removeChar (a : Char) (l : List Char) : List Char :=
  l.filter (fun c => ! (c == a))

/-- The separator-normalisation branches of `parse_price`
(lines 229-252): both separators present → the later one is decimal;
only commas → decimal only when a single comma sits within the last
three characters; more than one dot → all dots are thousands
separators; otherwise the text is left unchanged. -/
def normalize_separators (l : List Char) : List Char :=
  let dot_count := l.count '.'
  let comma_count := l.count ','
  if comma_count > 0 ∧ dot_count > 0 then
    if rfindIdx ',' l > rfindIdx '.' l then
      replaceChar ',' '.' (removeChar '.' l)
    else
      removeChar ',' l
  else if comma_count > 0 then
    if comma_count = 1 ∧ (l.indexOf ',' : ℤ) > (l.length : ℤ) - 4 then
      replaceChar ',' '.' l
    else
      removeChar ',' l
  else if dot_count > 1 then
    removeChar '.' l
  else l

/-- Numeric value of a decimal digit character. -/
def digitVal (c : Char) : ℕ := c.toNat - 48

/-- Value of the digits of a list, ignoring the underscores Python's
`float` permits between digits. -/
def digitsValue (l : List Char) : ℕ :=
  l.foldl (fun acc c => if c.isDigit then acc * 10 + digitVal c else acc) 0

/-- Number of digit characters in a list (underscores contribute no
decimal places). -/
def numDigits (l : List Char) : ℕ := (l.filter Char.isDigit).length

/-- Auxiliary for `isDigitPart`: after an initial digit, a `digitpart`
continues with digits, each underscore followed by a digit. -/
def isDigitPartAux : List Char → Bool
  | [] => true
  | c :: rest =>
    if c = '_' then
      match rest with
      | [] => false
      | d :: rest2 => d.isDigit && isDigitPartAux rest2
    else
      c.isDigit && isDigitPartAux rest

/-- Python's grammar production `digitpart ::= digit (["_"] digit)*`. -/
def isDigitPart : List Char → Bool
  | [] => false
  | c :: rest => c.isDigit && isDigitPartAux rest

/-- Unsigned part of Python's `float(str)`: either a bare `digitpart`
or a `pointfloat` with at most one dot and a nonempty side. -/
def python_float_core (body : List Char) : Option ℚ :=
  if body.count '.' = 0 then
    if isDigitPart body then some (mkRat (digitsValue body) 1) else none
  else if body.count '.' = 1 then
    let intPart := body.takeWhile (fun c => ! (c == '.'))
    let fracPart := (body.dropWhile (fun c => ! (c == '.'))).tail
    if (isDigitPart intPart || intPart.isEmpty)
        && (isDigitPart fracPart || fracPart.isEmpty)
        && ! (intPart.isEmpty && fracPart.isEmpty) then
      some (mkRat (digitsValue intPart * 10 ^ numDigits fracPart + digitsValue fracPart)
        (10 ^ numDigits fracPart))
    else none
  else none

/-- Python's built-in `float(str)` (line 254), modelled exactly over
the rationals on the repertoire reachable after the stripping step
(letters and whitespace are gone, so no exponent, `inf` or `nan`
forms can occur): an optional sign followed by the core grammar.
Failure (`ValueError`) is `none`. -/
def python_float (l : List Char) : Option ℚ :=
  match l with
  | [] => none
  | c :: rest =>
    if c = '-' then (python_float_core rest).map (fun q => -q)
    else if c = '+' then python_float_core rest
    else python_float_core l

/-- Embedding of `parse_price` (lines 213-262): empty text and text
containing `%` are rejected up front; currency letters and symbols are
stripped; separators are normalised; the remainder is parsed as a
Python float; results outside `(0, 999999]` are rejected.
`float('inf')` is modelled as `none`. -/
def parse_price (price_text : String) : Option ℚ :=
  if price_text = "" then none
  else if price_text.data.contains '%' then none
  else
    let cleaned := stripCurrency price_text.data
    match python_float (normalize_separators cleaned) with
    | none => none
    | some price => if price ≤ 0 ∨ price > 999999 then none else some price

/-- Bridge between the kernel-friendly `mkRat` values produced by the
embedding and the `n / d` form used in theorem statements. -/
theorem mkRat_eq_div_cast (n : ℤ) (d : ℕ) : (mkRat n d : ℚ) = (n : ℚ) / (d : ℚ) :=
  Rat.mkRat_eq_div n d

/-- C1 (counterexample): on the input with a single dot and three
trailing digits, `parse_price` takes no thousands-separator branch
(that branch requires more than one dot), so the dot is read as a
decimal separator: the result is 1.999, not the 1999 the spec's test
vector requires. -/
theorem parse_price_single_dot_counterexample :
    parse_price "1.999" = some (1999 / 1000 : ℚ) ∧ (1999 / 1000 : ℚ) ≠ (1999 : ℚ) := by
  constructor
  · have h : parse_price "1.999" = some (mkRat 1999 1000) := by decide
    rw [h, mkRat_eq_div_cast]
    push_cast
    norm_num
  · norm_num

/-- C1 (amended): the spec's `parse_price` test vectors, with the
single-dot vector corrected to what the code computes: "1.999,00" →
1999, "1,999.00" → 1999, "9,99" → 9.99, "1.999" → 1.999 (a single dot
is treated as a decimal separator, not a thousands separator),
"15% off" → Invalid, "0,00" → Invalid, "1500000" → Invalid. -/
theorem parse_price_spec_vectors :
    parse_price "1.999,00" = some 1999 ∧
    parse_price "1,999.00" = some 1999 ∧
    parse_price "9,99" = some (999 / 100 : ℚ) ∧
    parse_price "1.999" = some (1999 / 1000 : ℚ) ∧
    parse_price "15% off" = none ∧
    parse_price "0,00" = none ∧
    parse_price "1500000" = none := by
  refine ⟨by decide, by decide, ?_, ?_, by decide, by decide, by decide⟩
  · have h : parse_price "9,99" = some (mkRat 999 100) := by decide
    rw [h, mkRat_eq_div_cast]
    push_cast
    norm_num
  · have h : parse_price "1.999" = some (mkRat 1999 1000) := by decide
    rw [h, mkRat_eq_div_cast]
    push_cast
    norm_num

/-- C10: `parse_price` is total (the embedding returns an `Option`,
never an exception; the Python `float` call sits inside a
`try/except`) and every successful result lies in `(0, 999999]`
thanks to the final sanity check; the empty string yields Invalid. -/
theorem parse_price_total_and_bounded (s : String) :
    (parse_price s = none ∨ ∃ q : ℚ, parse_price s = some q ∧ 0 < q ∧ q ≤ 999999)
    ∧ parse_price "" = none := by
  constructor
  · unfold parse_price
    split_ifs with h1 h2
    · exact Or.inl rfl
    · exact Or.inl rfl
    · cases h : python_float (normalize_separators (stripCurrency s.data)) with
      | none => left; simp [h]
      | some price =>
        by_cases hb : price ≤ 0 ∨ price > 999999
        · left; simp [h, hb]
        · right
          push_neg at hb
          exact ⟨price, by simp [h, hb.1.not_le, hb.2.not_lt], hb.1, hb.2⟩
  · decide

/-- Witness for C10 at a concrete input. -/
theorem parse_price_total_and_bounded_witness :
    (parse_price "9,99" = none ∨
      ∃ q : ℚ, parse_price "9,99" = some q ∧ 0 < q ∧ q ≤ 999999)
    ∧ parse_price "" = none :=
  parse_price_total_and_bounded "9,99"

/-- A product candidate extracted by `parse_products` (lines 596-600):
the dictionary with keys `title`, `price`, `url`. -/
structure Product where
  title : String
  price : ℚ
  url : String
deriving DecidableEq, Repr

/-- The configuration fields consumed by the embedded core
(`config.json` keys used in the scan path). -/
structure Config where
  base_url : String
  max_price : ℚ
  excluded_url_patterns : List String

/-- The price-threshold filter applied per page in `scan_category`
(line 650): keep a product exactly when its price is at most the
configured maximum. -/
def filter_by_threshold (max_price : ℚ) (products : List Product) : List Product :=
  products.filter (fun p => decide (p.price ≤ max_price))

/-- Concrete product priced 9.99 for the threshold vectors. -/
def prod999 : Product :=
  { title := "sample product one", price := mkRat 999 100, url := "https://example.com/p1" }

/-- Concrete product priced 10.01 for the threshold vectors. -/
def prod1001 : Product :=
  { title := "sample product two", price := mkRat 1001 100, url := "https://example.com/p2" }

/-- C5: a product passes the scan's filter exactly when its price is
at most the threshold (the comparison is inclusive); concretely, at
threshold 10 a 9.99 product is kept and a 10.01 product is dropped. -/
theorem filter_by_threshold_keeps_iff (mp : ℚ) (ps : List Product) (p : Product) :
    (p ∈ filter_by_threshold mp ps ↔ p ∈ ps ∧ p.price ≤ mp)
    ∧ filter_by_threshold 10 [prod999, prod1001] = [prod999] := by
  constructor
  · simp [filter_by_threshold, List.mem_filter]
  · decide

/-- The on-disk dedup state written by `save_seen_products`
(lines 204-210): `json.dump(list(seen_products))`, a list enumerating
the in-memory set (the enumeration order a Python `set` yields is
arbitrary; the embedding fixes one by sorting, and the round-trip
theorem also shows the loaded set is independent of that order). -/
def save_seen_products (seen_products : Finset String) : List String :=
  seen_products.sort (fun a b => a ≤ b)

/-- The load in `load_seen_products` (lines 194-202):
`set(json.load(f))`, the set of the serialized list's elements. -/
def load_seen_products (l : List String) : Finset String :=
  l.toFinset

/-- C7: saving the seen-products set and loading it back reproduces
exactly the same set, and loading is invariant under any reordering of
the serialized list. -/
theorem save_load_seen_products_roundtrip (s : Finset String) :
    load_seen_products (save_seen_products s) = s
    ∧ ∀ l l' : List String, l.Perm l' → load_seen_products l = load_seen_products l' := by
  constructor
  · exact Finset.sort_toFinset _ s
  · exact fun l l' h => List.toFinset_eq_of_perm l l' h

/-- Witness for C7 at a concrete two-element key set and a concrete
reordering of the serialized list. -/
theorem save_load_seen_products_roundtrip_witness :
    load_seen_products (save_seen_products (insert "a" (insert "b" ∅)))
        = insert "a" (insert "b" ∅)
    ∧ load_seen_products ["a", "b"] = load_seen_products ["b", "a"] :=
  ⟨(save_load_seen_products_roundtrip (insert "a" (insert "b" ∅))).1,
   (save_load_seen_products_roundtrip (insert "a" (insert "b" ∅))).2 ["a", "b"] ["b", "a"]
     (List.Perm.swap "b" "a" [])⟩

/-- The deduplication identity computed at line 656:
`product_id = f"{url}_{price}"`. Python renders the float price after
an underscore; since a float rendering never contains an underscore,
the formatted string is in bijection with the (url, price) pair, so
the key is modelled as that pair. -/
def seen_key (p : Product) : String × ℚ :=
  (p.url, p.price)

/-- The state a category scan threads through its per-product loop
(lines 655-670): the shared seen-set, the category's found counter and
the Telegram notifications issued so far (each notification recorded
as the product it reports). -/
structure ScanState where
  seen : Finset (String × ℚ)
  found : ℕ
  notified : List Product
deriving DecidableEq

/-- One iteration of the per-product loop (lines 655-670): if the
product's key is already seen, nothing happens; otherwise the key is
recorded, the found counter is incremented and a notification is
sent. -/
def notify_product (st : ScanState) (p : Product) : ScanState :=
  if seen_key p ∈ st.seen then st
  else
    { seen := insert (seen_key p) st.seen
      found := st.found + 1
      notified := st.notified ++ [p] }

/-- The per-product loop over one page's threshold-filtered products
(lines 655-670). -/
def process_page_products (st : ScanState) (ps : List Product) : ScanState :=
  ps.foldl notify_product st

theorem notify_product_of_seen (st : ScanState) (p : Product)
    (h : seen_key p ∈ st.seen) : notify_product st p = st := by
  simp [notify_product, h]

theorem notify_product_seen_monotone (st : ScanState) (p : Product) :
    st.seen ⊆ (notify_product st p).seen := by
  unfold notify_product
  split_ifs
  · exact Finset.Subset.refl _
  · exact Finset.subset_insert _ _

theorem notify_product_mem_seen (st : ScanState) (p : Product) :
    seen_key p ∈ (notify_product st p).seen := by
  unfold notify_product
  split_ifs with h
  · exact h
  · exact Finset.mem_insert_self _ _

theorem process_page_products_seen_monotone (ps : List Product) (st : ScanState) :
    st.seen ⊆ (process_page_products st ps).seen := by
  induction ps generalizing st with
  | nil => exact Finset.Subset.refl _
  | cons p rest ih =>
    exact (notify_product_seen_monotone st p).trans (ih (notify_product st p))

theorem process_page_products_mem_seen (ps : List Product) (st : ScanState)
    (p : Product) (hp : p ∈ ps) :
    seen_key p ∈ (process_page_products st ps).seen := by
  induction ps generalizing st with
  | nil => cases hp
  | cons q rest ih =>
    cases List.mem_cons.mp hp with
    | inl h =>
      subst h
      exact process_page_products_seen_monotone rest (notify_product st p)
        (notify_product_mem_seen st p)
    | inr h => exact ih (notify_product st q) h

theorem process_page_products_of_all_seen (ps : List Product) (st : ScanState)
    (h : ∀ p ∈ ps, seen_key p ∈ st.seen) :
    process_page_products st ps = st := by
  induction ps with
  | nil => rfl
  | cons q rest ih =>
    have hq : notify_product st q = st := notify_product_of_seen st q (h q (by simp))
    show process_page_products (notify_product st q) rest = st
    rw [hq]
    exact ih (fun p hp => h p (List.mem_cons_of_mem q hp))

/-- C4: re-processing a page's product list after it has been
processed issues no further notification (the second pass is a no-op);
a product whose key is already in the seen-set leaves the state
untouched; two candidates at the same url with different prices have
different seen-keys; and a candidate whose key is unseen produces
exactly one new notification, which an immediate re-encounter does not
duplicate. -/
theorem scan_dedup_notifications (st : ScanState) (ps : List Product) (p q : Product) :
    process_page_products (process_page_products st ps) ps = process_page_products st ps
    ∧ (seen_key p ∈ st.seen → notify_product st p = st)
    ∧ (p.url = q.url → p.price ≠ q.price → seen_key p ≠ seen_key q)
    ∧ (seen_key q ∉ st.seen →
        (notify_product st q).notified = st.notified ++ [q]
        ∧ (notify_product (notify_product st q) q).notified = st.notified ++ [q]) := by
  refine ⟨?_, notify_product_of_seen st p, ?_, ?_⟩
  · exact process_page_products_of_all_seen ps _
      (fun r hr => process_page_products_mem_seen ps st r hr)
  · intro _ hprice hkey
    exact hprice (congrArg Prod.snd hkey)
  · intro hq
    have h1 : (notify_product st q).notified = st.notified ++ [q] := by
      simp [notify_product, hq]
    have h2 : notify_product (notify_product st q) q = notify_product st q :=
      notify_product_of_seen _ q (notify_product_mem_seen st q)
    rw [h2]
    exact ⟨h1, h1⟩

/-- A concrete scan state that has already seen and notified
`prod999`. -/
def stateSeen999 : ScanState :=
  { seen := insert (seen_key prod999) ∅, found := 1, notified := [prod999] }

/-- The same listing as `prod999` after a price drop to 4.99. -/
def prod999Dropped : Product :=
  { title := "sample product one", price := mkRat 499 100, url := prod999.url }

/-- Witness for C4 at concrete inputs: an already-seen product is not
re-notified, and an unseen product at the same url with a different
price is notified exactly once. -/
theorem scan_dedup_notifications_witness :
    notify_product stateSeen999 prod999 = stateSeen999
    ∧ (notify_product stateSeen999 prod999Dropped).notified = [prod999] ++ [prod999Dropped] := by
  constructor
  · exact (scan_dedup_notifications stateSeen999 [] prod999 prod999).2.1 (by decide)
  · exact ((scan_dedup_notifications stateSeen999 [] prod999 prod999Dropped).2.2.2
      (by decide)).1

/-- An anchor tag as seen through `soup.select(...)`: its `href`
attribute (`link.get('href', '')`). -/
structure Anchor where
  href : String
deriving DecidableEq

/-- An anchor inside a product container, as used by
`container.find_all('a', href=True)`: its stripped text and href. -/
structure LinkElem where
  text : String
  href : String
deriving DecidableEq

/-- An element matched by a title selector inside a container:
its `title` attribute (empty when absent), its stripped text, whether
its tag name is `a`, and its href. -/
structure TitleElem where
  titleAttr : String
  text : String
  isAnchor : Bool
  href : String
deriving DecidableEq

/-- An element matched by a price selector inside a container: its
stripped text. -/
structure PriceElem where
  text : String
deriving DecidableEq

/-- A product container (one markup subtree), abstracted by the
results of the queries `parse_products` performs on it. `oid` models
Python object identity, which the fallback container detection
deduplicates on. -/
structure Container where
  oid : ℕ
  selectOneTitle : String → Option TitleElem
  links : List LinkElem
  selectPrice : String → List PriceElem
  textNodes : List String
  fullText : String

/-- One entry of `soup.find_all('a', href=True)` during fallback
container detection: the anchor's href and its nearest
div/article/li/section ancestor (`find_parent`), when any. -/
structure FallbackAnchor where
  href : String
  parent : Option Container

/-- A fetched page as seen through the BeautifulSoup queries the
source performs: `soup.select` on anchor-valued selectors (navigation
and pagination patterns all end in ` a`), `soup.select` on
container-valued selectors, and `soup.find_all('a', href=True)`. -/
structure Doc where
  selectAnchors : String → List Anchor
  selectContainers : String → List Container
  allAnchors : List FallbackAnchor

/-- Auxiliary for `substrOf`: does the needle occur as a prefix of any
suffix of the haystack. -/
def substrAux (needle : List Char) : List Char → Bool
  | [] => needle.isEmpty
  | c :: rest => needle.isPrefixOf (c :: rest) || substrAux needle rest

/-- Python's substring test `needle in hay`. -/
def substrOf (needle hay : String) : Bool :=
  substrAux needle.data hay.data

/-- Python's `str.startswith`, on the character lists (the UTF8
position arithmetic of core `String.startsWith` is avoided so that
concrete instances evaluate). -/
def pyStartsWith (s pre : String) : Bool :=
  pre.data.isPrefixOf s.data

/-- Python's `str.lower()` on the ASCII range the URLs use. -/
def pyLower (s : String) : String :=
  String.mk (s.data.map Char.toLower)

theorem pyStartsWith_iff (s pre : String) :
    pyStartsWith s pre = true ↔ pre.data <+: s.data :=
  List.isPrefixOf_iff_prefix

/-- The ordered navigation selector patterns of `get_all_categories`
(lines 298-308). -/
def menu_selectors : List String :=
  ["nav a", ".navigation a", ".menu a", ".nav-menu a", "header nav a",
   ".category-menu a", ".main-nav a", "#menu a", "ul.menu a"]

/-- The built-in non-category keyword denylist of `get_all_categories`
(lines 329-338). -/
def excluded_keywords : List String :=
  ["account", "cart", "checkout", "login", "register", "signup",
   "forgot", "password", "orders", "order", "return", "returns",
   "blog", "testimonials", "contact", "about", "terms", "conditions",
   "policy", "privacy", "delivery", "shipping", "payment", "payments",
   "map", "search", "wishlist", "wish-list", "favorites", "favourites",
   "newsletter", "subscribe", "cookies", "how-to-buy", "faq",
   "price-guarantee", "loyalty", "rewards", "points",
   "size-guide", "size-chart", "info", "information"]

/-- The per-link filter of `get_all_categories` (lines 316-348):
drop empty, `#` and `/` hrefs; resolve against the base URL (the
`urljoin` argument models `urllib.parse.urljoin`); enforce the
same-origin prefix check; drop links whose lowercased URL contains a
denylist keyword or a configured exclusion pattern; otherwise yield
the resolved URL. -/
def keep_category_link (urljoin : String → String → String) (cfg : Config)
    (base_url : String) (href : String) : Option String :=
  if href = "" ∨ href = "#" ∨ href = "/" then none
  else if ! pyStartsWith (urljoin base_url href) base_url then none
  else if excluded_keywords.any
      (fun k => substrOf k (pyLower (urljoin base_url href))) then none
  else if cfg.excluded_url_patterns.any
      (fun k => substrOf k (pyLower (urljoin base_url href))) then none
  else some (urljoin base_url href)

/-- The inner loop of `get_all_categories` over one selector's links
(lines 315-348), inserting each kept URL into the category set. -/
def add_category_links (urljoin : String → String → String) (cfg : Config)
    (base_url : String) (links : List Anchor) (categories : Finset String) : Finset String :=
  links.foldl (fun cats link =>
    match keep_category_link urljoin cfg base_url link.href with
    | none => cats
    | some full_url => insert full_url cats) categories

/-- One iteration of the selector loop of `get_all_categories`
(lines 310-348): select the links for this pattern and, when any
matched, add their kept URLs. The loop has no break, so every
selector contributes. -/
def category_selector_step (doc : Doc) (urljoin : String → String → String)
    (cfg : Config) (base_url : String) (cats : Finset String) (selector : String) :
    Finset String :=
  let links := doc.selectAnchors selector
  if links.isEmpty then cats else add_category_links urljoin cfg base_url links cats

/-- Embedding of `get_all_categories` (lines 286-352): fetch the base
page (empty set on failure) and run the selector loop over the whole
ordered pattern list, accumulating a set of category URLs. -/
def get_all_categories (fetch : String → Option Doc) (urljoin : String → String → String)
    (cfg : Config) (base_url : String) : Finset String :=
  match fetch base_url with
  | none => ∅
  | some doc => menu_selectors.foldl (category_selector_step doc urljoin cfg base_url) ∅

/-- Modelled from the spec: the Category Discoverer the spec describes
in §4.3, which collects hrefs only from the first navigation selector
pattern that yields any matches (first-match-wins), for comparison
with `get_all_categories` as the code implements it. -/
def get_all_categories_first_match (fetch : String → Option Doc)
    (urljoin : String → String → String) (cfg : Config) (base_url : String) : Finset String :=
  match fetch base_url with
  | none => ∅
  | some doc =>
    match menu_selectors.find? (fun sel => ! (doc.selectAnchors sel).isEmpty) with
    | none => ∅
    | some sel => add_category_links urljoin cfg base_url (doc.selectAnchors sel) ∅

theorem add_category_links_cons (u : String → String → String) (cfg : Config)
    (b : String) (a : Anchor) (rest : List Anchor) (cats : Finset String) :
    add_category_links u cfg b (a :: rest) cats
      = add_category_links u cfg b rest
          (match keep_category_link u cfg b a.href with
           | none => cats
           | some full_url => insert full_url cats) := rfl

theorem mem_add_category_links (u : String → String → String) (cfg : Config)
    (b : String) (links : List Anchor) (cats : Finset String) (x : String) :
    x ∈ add_category_links u cfg b links cats
      ↔ x ∈ cats ∨ ∃ a ∈ links, keep_category_link u cfg b a.href = some x := by
  induction links generalizing cats with
  | nil => simp [add_category_links]
  | cons a rest ih =>
    rw [add_category_links_cons, ih]
    cases h : keep_category_link u cfg b a.href with
    | none =>
      simp only [h, List.mem_cons]
      constructor
      · rintro (hc | ⟨r, hr, hk⟩)
        · exact Or.inl hc
        · exact Or.inr ⟨r, Or.inr hr, hk⟩
      · rintro (hc | ⟨r, (rfl | hr), hk⟩)
        · exact Or.inl hc
        · exact absurd (h ▸ hk) (by simp)
        · exact Or.inr ⟨r, hr, hk⟩
    | some y =>
      simp only [h, Finset.mem_insert, List.mem_cons]
      constructor
      · rintro ((rfl | hc) | ⟨r, hr, hk⟩)
        · exact Or.inr ⟨a, Or.inl rfl, h.symm ▸ rfl⟩
        · exact Or.inl hc
        · exact Or.inr ⟨r, Or.inr hr, hk⟩
      · rintro (hc | ⟨r, (rfl | hr), hk⟩)
        · exact Or.inl (Or.inr hc)
        · rw [h] at hk
          exact Or.inl (Or.inl (Option.some.inj hk).symm)
        · exact Or.inr ⟨r, hr, hk⟩

theorem mem_selector_fold (doc : Doc) (u : String → String → String) (cfg : Config)
    (b : String) (sels : List String) (init : Finset String) (x : String) :
    x ∈ sels.foldl (category_selector_step doc u cfg b) init
      ↔ x ∈ init ∨ ∃ sel ∈ sels, ∃ a ∈ doc.selectAnchors sel,
          keep_category_link u cfg b a.href = some x := by
  induction sels generalizing init with
  | nil => simp
  | cons s rest ih =>
    rw [List.foldl_cons, ih]
    by_cases hs : (doc.selectAnchors s).isEmpty
    · have hnil : doc.selectAnchors s = [] := List.isEmpty_iff.mp hs
      simp only [category_selector_step, hs, if_pos, List.mem_cons]
      constructor
      · rintro (hc | ⟨sel, hsel, a, ha, hk⟩)
        · exact Or.inl hc
        · exact Or.inr ⟨sel, Or.inr hsel, a, ha, hk⟩
      · rintro (hc | ⟨sel, (rfl | hsel), a, ha, hk⟩)
        · exact Or.inl hc
        · rw [hnil] at ha
          cases ha
        · exact Or.inr ⟨sel, hsel, a, ha, hk⟩
    · simp only [category_selector_step, hs, if_neg, Bool.not_eq_true,
        mem_add_category_links, List.mem_cons]
      constructor
      · rintro ((hc | ⟨a, ha, hk⟩) | ⟨sel, hsel, a, ha, hk⟩)
        · exact Or.inl hc
        · exact Or.inr ⟨s, Or.inl rfl, a, ha, hk⟩
        · exact Or.inr ⟨sel, Or.inr hsel, a, ha, hk⟩
      · rintro (hc | ⟨sel, (rfl | hsel), a, ha, hk⟩)
        · exact Or.inl (Or.inl hc)
        · exact Or.inl (Or.inr ⟨a, ha, hk⟩)
        · exact Or.inr ⟨sel, hsel, a, ha, hk⟩

/-- Characterization of the category set the code produces: a URL is
discovered exactly when the base fetch succeeded and some selector in
the ordered list (not only the first that matches) yields an anchor
whose href survives the link filter. -/
theorem mem_get_all_categories (fetch : String → Option Doc)
    (u : String → String → String) (cfg : Config) (b x : String) :
    x ∈ get_all_categories fetch u cfg b
      ↔ ∃ doc, fetch b = some doc ∧ ∃ sel ∈ menu_selectors, ∃ a ∈ doc.selectAnchors sel,
          keep_category_link u cfg b a.href = some x := by
  unfold get_all_categories
  cases hf : fetch b with
  | none => simp
  | some doc =>
    rw [mem_selector_fold]
    simp

/-- A concrete stand-in for `urllib.parse.urljoin` used by witnesses:
absolute hrefs are kept, relative ones are appended to the base. The
main theorems hold for every join function. -/
def urljoinSimple (base href : String) : String :=
  if pyStartsWith href "http" then href else base ++ href

/-- The default configuration values of `DEFAULT_CONFIG`
(lines 23-35) that the embedded core consumes. -/
def cfgEx : Config :=
  { base_url := "https://example.com"
    max_price := 10
    excluded_url_patterns := ["gift-card", "voucher", "gift-certificate"] }

/-- A concrete base page whose nav bar links to `/shoes` and whose
secondary navigation container links to `/books`. -/
def docNav : Doc :=
  { selectAnchors := fun sel =>
      if sel = "nav a" then [{ href := "/shoes" }]
      else if sel = ".navigation a" then [{ href := "/books" }]
      else []
    selectContainers := fun _ => []
    allAnchors := [] }

/-- A fetcher that serves `docNav` for the example base URL. -/
def fetchNav : String → Option Doc :=
  fun u => if u = "https://example.com" then some docNav else none

set_option maxRecDepth 40000 in
/-- C2 (counterexample): on `docNav` the first selector pattern
(`nav a`) already yields a match, yet the category set also contains
the `/books` URL contributed by the second pattern — the code unions
across all matching selector patterns, unlike the first-match-wins
discoverer described by the spec. -/
theorem get_all_categories_unions_selectors :
    (docNav.selectAnchors "nav a").isEmpty = false
    ∧ "https://example.com/books" ∈
        get_all_categories fetchNav urljoinSimple cfgEx "https://example.com"
    ∧ "https://example.com/books" ∉
        get_all_categories_first_match fetchNav urljoinSimple cfgEx "https://example.com" := by
  refine ⟨rfl, ?_, ?_⟩
  · rw [mem_get_all_categories]
    exact ⟨docNav, rfl, ".navigation a", by decide, { href := "/books" }, by decide, by decide⟩
  · intro hmem
    have h1 : get_all_categories_first_match fetchNav urljoinSimple cfgEx "https://example.com"
        = add_category_links urljoinSimple cfgEx "https://example.com"
            (docNav.selectAnchors "nav a") ∅ := rfl
    rw [h1, mem_add_category_links] at hmem
    rcases hmem with hmem | ⟨a, ha, hk⟩
    · exact absurd hmem (Finset.not_mem_empty _)
    · have ha2 : a = { href := "/shoes" } := by
        have : docNav.selectAnchors "nav a" = [{ href := "/shoes" }] := rfl
        rw [this] at ha
        simpa using ha
      subst ha2
      exact absurd hk (by decide)

/-- C2 (amended): the Category Discoverer collects the anchors of
every selector pattern in its ordered list that yields matches (a
union across patterns, deduplicated by the result set), each link
passing the same-origin and exclusion filters. -/
theorem get_all_categories_union_of_selectors (fetch : String → Option Doc)
    (u : String → String → String) (cfg : Config) (b x : String) :
    x ∈ get_all_categories fetch u cfg b
      ↔ ∃ doc, fetch b = some doc ∧ ∃ sel ∈ menu_selectors, ∃ a ∈ doc.selectAnchors sel,
          keep_category_link u cfg b a.href = some x :=
  mem_get_all_categories fetch u cfg b x

theorem keep_category_link_startsWith (u : String → String → String) (cfg : Config)
    (b href x : String) (h : keep_category_link u cfg b href = some x) :
    b.data <+: x.data := by
  unfold keep_category_link at h
  split_ifs at h with h1 h2 h3 h4
  rw [Option.some.injEq] at h
  subst h
  have h2' : pyStartsWith (u b href) b = true := by simpa using h2
  exact (pyStartsWith_iff _ _).mp h2'

/-- C9: every URL in the discovered category set begins with the
configured base URL (the same-origin check of line 324), whatever the
fetched document, join function and configuration are. -/
theorem get_all_categories_same_origin (fetch : String → Option Doc)
    (u : String → String → String) (cfg : Config) (b x : String)
    (h : x ∈ get_all_categories fetch u cfg b) : b.data <+: x.data := by
  rw [mem_get_all_categories] at h
  obtain ⟨doc, _, sel, _, a, _, hkeep⟩ := h
  exact keep_category_link_startsWith u cfg b a.href x hkeep

set_option maxRecDepth 40000 in
/-- Witness for C9 at a concrete discovered category. -/
theorem get_all_categories_same_origin_witness :
    ("https://example.com").data <+: ("https://example.com/shoes").data :=
  get_all_categories_same_origin fetchNav urljoinSimple cfgEx "https://example.com"
    "https://example.com/shoes"
    ((mem_get_all_categories fetchNav urljoinSimple cfgEx "https://example.com"
        "https://example.com/shoes").mpr
      ⟨docNav, rfl, "nav a", by decide, { href := "/shoes" }, by decide, by decide⟩)

/-- The ordered pagination selector patterns of `get_all_pages`
(lines 372-379). -/
def pagination_selectors : List String :=
  [".pagination a", ".pager a", "a[rel=\"next\"]", ".page-numbers a",
   "nav.pagination a", "ul.pagination a"]

/-- The sorted page-1 URL built at lines 360-362: the category URL
with the ascending-price sort query parameter appended behind the
appropriate separator. -/
def sorted_url (category_url : String) : String :=
  category_url ++ (if category_url.data.contains '?' then "&" else "?") ++ "sort_by=price_asc"

/-- One iteration of the pagination-link loop (lines 384-389): keep
non-empty hrefs that are not `#` or `javascript:void(0)`, resolve
them, and append each resolved URL not already collected. -/
def add_page_link (urljoin : String → String → String) (category_url : String)
    (pages : List String) (a : Anchor) : List String :=
  if a.href ≠ "" ∧ a.href ≠ "#" ∧ a.href ≠ "javascript:void(0)" then
    if urljoin category_url a.href ∈ pages then pages
    else pages ++ [urljoin category_url a.href]
  else pages

/-- Embedding of `get_all_pages` (lines 355-396): the sorted page-1
URL is emitted first; when its fetch succeeds, the first pagination
selector pattern with any matches contributes its links (the loop
breaks after it); when the fetch fails the list stays just page 1. -/
def get_all_pages (fetch : String → Option Doc) (urljoin : String → String → String)
    (category_url : String) : List String :=
  match fetch (sorted_url category_url) with
  | none => [sorted_url category_url]
  | some doc =>
    match pagination_selectors.find? (fun sel => ! (doc.selectAnchors sel).isEmpty) with
    | none => [sorted_url category_url]
    | some sel =>
      (doc.selectAnchors sel).foldl (add_page_link urljoin category_url)
        [sorted_url category_url]

theorem add_page_link_head (urljoin : String → String → String) (u : String)
    (pages : List String) (a : Anchor) (h : pages ≠ []) :
    (add_page_link urljoin u pages a).head? = pages.head?
    ∧ add_page_link urljoin u pages a ≠ [] := by
  unfold add_page_link
  split_ifs with h1 h2
  · exact ⟨rfl, h⟩
  · cases pages with
    | nil => exact absurd rfl h
    | cons x xs => exact ⟨by simp, by simp⟩
  · exact ⟨rfl, h⟩

theorem foldl_add_page_link_head (urljoin : String → String → String) (u : String)
    (links : List Anchor) (pages : List String) (h : pages ≠ []) :
    (links.foldl (add_page_link urljoin u) pages).head? = pages.head? := by
  induction links generalizing pages with
  | nil => rfl
  | cons a rest ih =>
    rw [List.foldl_cons]
    obtain ⟨h1, h2⟩ := add_page_link_head urljoin u pages a h
    rw [ih _ h2, h1]

/-- C6: the first page the Pagination Discoverer returns is always
the category URL with the ascending-price sort parameter appended,
and when the fetch of that sorted page fails the returned list is
exactly that single page-1 URL. -/
theorem get_all_pages_sorted_first (fetch : String → Option Doc)
    (urljoin : String → String → String) (u : String) :
    (get_all_pages fetch urljoin u).head? =
      some (u ++ (if u.data.contains '?' then "&" else "?") ++ "sort_by=price_asc")
    ∧ (fetch (sorted_url u) = none → get_all_pages fetch urljoin u = [sorted_url u]) := by
  constructor
  · show (get_all_pages fetch urljoin u).head? = some (sorted_url u)
    unfold get_all_pages
    cases hf : fetch (sorted_url u) with
    | none => rfl
    | some doc =>
      cases hsel : pagination_selectors.find?
          (fun sel => ! (doc.selectAnchors sel).isEmpty) with
      | none =>
        show (match pagination_selectors.find?
            (fun sel => ! (doc.selectAnchors sel).isEmpty) with
          | none => [sorted_url u]
          | some sel =>
            (doc.selectAnchors sel).foldl (add_page_link urljoin u)
              [sorted_url u]).head? = some (sorted_url u)
        rw [hsel]
        rfl
      | some sel =>
        show (match pagination_selectors.find?
            (fun sel => ! (doc.selectAnchors sel).isEmpty) with
          | none => [sorted_url u]
          | some sel =>
            (doc.selectAnchors sel).foldl (add_page_link urljoin u)
              [sorted_url u]).head? = some (sorted_url u)
        rw [hsel]
        exact foldl_add_page_link_head urljoin u (doc.selectAnchors sel)
          [sorted_url u] (by simp)
  · intro hf
    unfold get_all_pages
    rw [hf]

/-- A fetcher for which every request fails after exhausting its
retries (`make_request` returns `None` for every URL). -/
def fetchNone : String → Option Doc := fun _ => none

/-- Witness for C6: with every fetch failing, the page list of a
concrete category is exactly the single sorted page-1 URL. -/
theorem get_all_pages_sorted_first_witness :
    get_all_pages fetchNone urljoinSimple "https://example.com/cat"
      = [sorted_url "https://example.com/cat"] :=
  (get_all_pages_sorted_first fetchNone urljoinSimple "https://example.com/cat").2 rfl

/-- Python's `str.strip()` over the ASCII whitespace repertoire. -/
def pyStrip (s : String) : String :=
  String.mk (((s.data.dropWhile pyWhitespaceChar).reverse.dropWhile pyWhitespaceChar).reverse)

/-- The ordered container selector patterns of `parse_products`
(lines 411-423). -/
def container_selectors : List String :=
  [".product", ".product-item", ".product-card", "article.product",
   ".item-product", "[data-product-id]", ".grid-item", ".product-listing-item",
   "[class*=\"product\"]", "article[class*=\"item\"]", "div[class*=\"grid\"]"]

/-- Href tokens that disqualify an anchor during fallback container
detection (line 445). -/
def fallback_skip_tokens : List String := ["#", "javascript:", "mailto:"]

/-- The currency-like tokens looked for in a parent's raw text during
fallback container detection (line 453). -/
def fallback_currency_tokens : List String := ["lei", "ron", "$", "€", "£", ",", "."]

/-- First-occurrence deduplication by object identity, modelling the
`list(set(potential_products))` of line 458 (Python's set enumerates
in arbitrary order; the embedding keeps document order, on which no
theorem depends). -/
def dedupByOid (l : List Container) : List Container :=
  (l.foldl (fun (acc : List Container × List ℕ) c =>
    if c.oid ∈ acc.2 then acc else (acc.1 ++ [c], c.oid :: acc.2)) ([], [])).1

/-- Fallback container detection (lines 437-460): each page anchor
whose href contains no skip token and whose nearest block ancestor's
text contains both a currency-like token and a digit contributes that
ancestor; the result is deduplicated by identity. -/
def fallback_containers (doc : Doc) : List Container :=
  dedupByOid (doc.allAnchors.filterMap (fun a =>
    if fallback_skip_tokens.any (fun t => substrOf t (pyLower a.href)) then none
    else
      match a.parent with
      | none => none
      | some parent =>
        if (fallback_currency_tokens.any (fun t => substrOf t parent.fullText))
            && parent.fullText.data.any Char.isDigit then some parent
        else none))

/-- Two-tier container detection (lines 425-464): the first selector
pattern yielding at least 3 containers wins; with none, the fallback
scan runs. -/
def find_product_containers (doc : Doc) : List Container :=
  match container_selectors.find?
      (fun sel => decide ((doc.selectContainers sel).length ≥ 3)) with
  | some sel => doc.selectContainers sel
  | none => fallback_containers doc

/-- The ordered title selector patterns (lines 475-479). -/
def title_selectors : List String :=
  ["h2 a", "h3 a", "h4 a", "h2", "h3", "h4",
   ".product-title", ".product-name", ".title",
   "a.product-link", "a[title]", ".name"]

/-- The title selector loop (lines 481-490), returning the Python
locals `(title, title_elem)` after the loop: an iteration whose
selector matches overwrites `title` with its candidate (the stripped
`title` attribute when non-empty, else the element text) and breaks —
setting `title_elem` — only when the candidate is non-empty and longer
than 5 characters; a non-qualifying candidate remains in `title` when
the loop runs out. -/
def title_selector_loop (c : Container) (cur : Option String) :
    List String → Option String × Option TitleElem
  | [] => (cur, none)
  | sel :: rest =>
    match c.selectOneTitle sel with
    | none => title_selector_loop c cur rest
    | some e =>
      let t0 := pyStrip e.titleAttr
      let t := if t0 = "" then e.text else t0
      if t ≠ "" ∧ t.data.length > 5 then (some t, some e)
      else title_selector_loop c (some t) rest

/-- The title fallback of lines 492-500. The code's comment announces
the longest link text, but the loop takes the FIRST link whose text
exceeds 10 characters. -/
def title_link_fallback (c : Container) : Option (String × LinkElem) :=
  c.links.findSome? (fun l => if l.text.data.length > 10 then some (l.text, l) else none)

/-- What the URL phase needs to know about the chosen title element:
whether it is an anchor, and its href. -/
structure TitleRef where
  isAnchor : Bool
  href : String
deriving DecidableEq

/-- The full title extraction for one container (lines 471-504): the
selector loop, then — only when the leftover `title` is falsy — the
first-long-link fallback; a container whose `title` is still falsy is
skipped. The `title_elem` reference is `none` when the loop ended
without a qualifying break (it is never set by a leftover
candidate). -/
def extract_title (c : Container) : Option (String × Option TitleRef) :=
  match title_selector_loop c none title_selectors with
  | (some t, some e) => some (t, some { isAnchor := e.isAnchor, href := e.href })
  | (some t, none) =>
    if t = "" then
      match title_link_fallback c with
      | some (t2, l) => some (t2, some { isAnchor := true, href := l.href })
      | none => none
    else some (t, none)
  | (none, _) =>
    match title_link_fallback c with
    | some (t2, l) => some (t2, some { isAnchor := true, href := l.href })
    | none => none

/-- Skip tokens for product links (line 521). -/
def link_skip_tokens : List String := ["#", "javascript:", "mailto:", "tel:"]

/-- The product-link search of lines 514-523: among container links
with an href longer than 5 characters, the first whose lowercased
href contains no skip token. -/
def first_valid_link (c : Container) : Option String :=
  ((c.links.filter (fun l => decide (l.href.data.length > 5))).find?
    (fun l => ! link_skip_tokens.any (fun t => substrOf t (pyLower l.href)))).map
    (fun l => l.href)

/-- The URL phase (lines 506-529): reuse the title element when it is
an anchor, otherwise search the container; skip the container when
nothing qualifies. -/
def extract_link_href (c : Container) (tref : Option TitleRef) : Option String :=
  match tref with
  | some r => if r.isAnchor then some r.href else first_valid_link c
  | none => first_valid_link c

/-- The ordered price selector patterns (lines 536-545). -/
def price_selectors : List String :=
  [".product__info--price-gross", ".price", ".product-price", "span.price",
   ".price-current", "[data-price]", "[class*=\"price\"]", "span[class*=\"price\"]"]

/-- Acceptance test for one price element's text (lines 549-560):
non-empty, no percent sign, no discount/save/eco wording, and the
Price Parser must yield a positive value. -/
def price_from_elem_text (text : String) : Option ℚ :=
  if text ≠ "" ∧ ! text.data.contains '%' ∧ ! substrOf "discount" (pyLower text)
      ∧ ! substrOf "save" (pyLower text) ∧ ! substrOf "eco" (pyLower text) then
    match parse_price text with
    | some q => if q > 0 then some q else none
    | none => none
  else none

/-- The price selector loop (lines 547-562): the first element of the
first selector pattern whose text is accepted provides the price. -/
def price_from_selectors (c : Container) : Option ℚ :=
  price_selectors.findSome? (fun sel =>
    (c.selectPrice sel).findSome? (fun e => price_from_elem_text e.text))

/-- Currency tokens of the price text-node fallback (line 572) — this
list, unlike the container-detection one, carries no dot. -/
def price_fallback_currency_tokens : List String := ["lei", "ron", "$", "€", "£", ","]

/-- The price fallback (lines 564-578): the first stripped text node
containing a digit and a currency token (matched on the lowercased
text), free of percent signs and discount wording, whose parse is
positive. -/
def price_from_text_nodes (c : Container) : Option ℚ :=
  c.textNodes.findSome? (fun node =>
    let text := pyStrip node
    if (text.data.any Char.isDigit)
        ∧ (price_fallback_currency_tokens.any (fun t => substrOf t (pyLower text)))
        ∧ ! text.data.contains '%' ∧ ! substrOf "discount" (pyLower text) then
      match parse_price text with
      | some q => if q > 0 then some q else none
      | none => none
    else none)

/-- The per-container extraction (lines 466-606): title, link URL and
price phases with their fallbacks, then the final sanity bound and
the configured URL exclusion patterns; any failed stage skips the
container. The per-container `try/except` has nothing to catch in the
pure embedding. -/
def extract_product (urljoin : String → String → String) (cfg : Config)
    (c : Container) : Option Product :=
  match extract_title c with
  | none => none
  | some (title, tref) =>
    match extract_link_href c tref with
    | none => none
    | some href =>
      match (match price_from_selectors c with
             | some q => some q
             | none => price_from_text_nodes c) with
      | none => none
      | some price =>
        if price ≤ 0 ∨ price > 999999 then none
        else if cfg.excluded_url_patterns.any
            (fun pat => substrOf pat (pyLower (urljoin cfg.base_url href))) then none
        else some { title := title, price := price, url := urljoin cfg.base_url href }

/-- Embedding of `parse_products` (lines 399-609): fetch the page
(empty list when the fetch fails), detect containers, and extract a
product from each container that survives every phase. -/
def parse_products (fetch : String → Option Doc) (urljoin : String → String → String)
    (cfg : Config) (url : String) : List Product :=
  match fetch url with
  | none => []
  | some doc => (find_product_containers doc).filterMap (extract_product urljoin cfg)

/-- A container on which no title selector matches, with two links
whose texts both exceed 10 characters, the first strictly shorter
than the second. -/
def containerC8 : Container :=
  { oid := 0
    selectOneTitle := fun _ => none
    links := [{ text := "short link text", href := "https://example.com/a" },
              { text := "a considerably longer link text", href := "https://example.com/b" }]
    selectPrice := fun _ => []
    textNodes := []
    fullText := "" }

/-- C8 (evaluation at the failing input): when no title selector
pattern qualifies, the fallback titles the container with the FIRST
link text exceeding 10 characters — here "short link text" — even
though a strictly longer qualifying link text follows, contradicting
the code's own comment and the spec's "longest link text". -/
theorem extract_title_fallback_takes_first :
    extract_title containerC8
      = some ("short link text", some { isAnchor := true, href := "https://example.com/a" })
    ∧ ("short link text").data.length < ("a considerably longer link text").data.length := by
  exact ⟨by decide, by decide⟩

/-- Embedding of `scan_category` (lines 633-676): discover pages,
then per page parse products, keep those within the price threshold,
add their count to `products_checked`, and run the dedup/notify loop.
The tuple is `(products_checked, products_found, had_errors)` with
the final scan state; `had_errors` is set only by the `except` branch
at lines 674-676, which only a Python runtime exception can reach, so
the embedded success path always reports `false`. -/
def scan_category (fetch : String → Option Doc) (urljoin : String → String → String)
    (cfg : Config) (seen : Finset (String × ℚ)) (category_url : String) :
    (ℕ × ℕ × Bool) × ScanState :=
  let pages := get_all_pages fetch urljoin category_url
  let final := pages.foldl (fun (acc : ℕ × ScanState) page_url =>
      let filtered := filter_by_threshold cfg.max_price
        (parse_products fetch urljoin cfg page_url)
      (acc.1 + filtered.length, process_page_products acc.2 filtered))
    (0, { seen := seen, found := 0, notified := [] })
  ((final.1, final.2.found, false), final.2)

/-- The result-draining aggregation of `scan_website` (lines
693-717): sum checked and found counts over all category outcomes and
count the categories whose error flag is set; the shared seen-set
threads through (the worker pool's interleavings only reorder
keyed, order-insensitive updates). -/
def run_scan_pool (fetch : String → Option Doc) (urljoin : String → String → String)
    (cfg : Config) (seen0 : Finset (String × ℚ)) (categories : List String) :
    (ℕ × ℕ × ℕ) × Finset (String × ℚ) :=
  categories.foldl (fun acc cat =>
    let r := scan_category fetch urljoin cfg acc.2 cat
    ((acc.1.1 + r.1.1, acc.1.2.1 + r.1.2.1, acc.1.2.2 + (if r.1.2.2 then 1 else 0)),
      r.2.seen))
    ((0, 0, 0), seen0)

/-- C3 (amended): a category whose sorted-page fetch fails after
exhausting retries contributes 0 to the checked count, 0 to the found
count and 0 — not 1 — to the error-category count: `make_request`
degrades to `None`, `get_all_pages` and `parse_products` degrade to
empty data, no exception reaches the `except` branch that alone sets
the error flag, and the aggregation over the remaining categories is
unchanged. -/
theorem scan_category_fetch_failure (fetch : String → Option Doc)
    (urljoin : String → String → String) (cfg : Config) (seen : Finset (String × ℚ))
    (u : String) (rest : List String) (h : fetch (sorted_url u) = none) :
    scan_category fetch urljoin cfg seen u
      = ((0, 0, false), { seen := seen, found := 0, notified := [] })
    ∧ run_scan_pool fetch urljoin cfg seen (u :: rest)
      = run_scan_pool fetch urljoin cfg seen rest := by
  have hpages : get_all_pages fetch urljoin u = [sorted_url u] := by
    unfold get_all_pages
    rw [h]
  have hprod : parse_products fetch urljoin cfg (sorted_url u) = [] := by
    unfold parse_products
    rw [h]
  have hscan : scan_category fetch urljoin cfg seen u
      = ((0, 0, false), { seen := seen, found := 0, notified := [] }) := by
    unfold scan_category
    rw [hpages]
    simp [hprod, filter_by_threshold, process_page_products]
  refine ⟨hscan, ?_⟩
  show List.foldl _ _ (u :: rest) = _
  rw [List.foldl_cons]
  simp only [hscan]
  rfl

/-- C3 (counterexample): with every fetch failing, the concrete
category's outcome is 0 checked, 0 found and error flag `false`, so
the orchestrator's error-category count over that category is 0 —
not the 1 the claim requires. -/
theorem scan_category_fetch_failure_counterexample :
    scan_category fetchNone urljoinSimple cfgEx ∅ "https://example.com/cat"
      = ((0, 0, false), { seen := ∅, found := 0, notified := [] })
    ∧ (run_scan_pool fetchNone urljoinSimple cfgEx ∅ ["https://example.com/cat"]).1.2.2 = 0
    ∧ (0 : ℕ) ≠ 1 := by
  refine ⟨by decide, by decide, by decide⟩

/-- Witness for C3 applied at a failing concrete category followed by
another category. -/
theorem scan_category_fetch_failure_witness :
    run_scan_pool fetchNone urljoinSimple cfgEx ∅
        ["https://example.com/a", "https://example.com/b"]
      = run_scan_pool fetchNone urljoinSimple cfgEx ∅ ["https://example.com/b"] :=
  (scan_category_fetch_failure fetchNone urljoinSimple cfgEx ∅
    "https://example.com/a" ["https://example.com/b"] rfl).2
